import Mathlib

/-!
Verification of the sparse W16A16 linear method
(src/vllm/model_executor/layers/sparsity/sparse_w16a16_linear_method.py)
and the model loader (src/vllm/model_executor/model_loader.py) of
neuralmagic-vllm.

Tensors are shallowly embedded as a logical shape together with the
row-major 2-D matrix obtained by flattening every leading dimension; every
reshape the dispatcher performs preserves the trailing-dimension grouping,
so this representation is exact for the code under study.  Scalars are
modelled as integers.  The magic_wand kernels and the
LazyCompressedParameter container are not under src/, so they are modelled
from the spec (each such definition says so in its doc comment); everything
else is translated from the source.
-/

/-- Torch numeric dtypes; only their identity matters for the claims. -/
inductive TorchDtype where
  | float16
  | bfloat16
  | float32
deriving DecidableEq

/-- A row-major 2-D matrix of integer-modelled scalars. -/
abbrev Mat := List (List Int)

/-- Dot product of two rows (zip truncates at the shorter row). -/
def dotInt (a b : List Int) : Int := (List.zipWith (fun u v => u * v) a b).sum

/-- A torch tensor of shape `[d0, ..., d(k-1), dk]`, stored as the logical
shape plus the row-major matrix whose rows are the trailing size-`dk`
slices. -/
structure Tensor where
  shape : List Nat
  mat : Mat
deriving DecidableEq

/-- The trailing dimension of a tensor (`x.shape[-1]`). -/
def Tensor.lastDim (t : Tensor) : Nat := t.shape.getLastD 0

/-- Well-formedness of the flattened representation: a nonempty shape, one
matrix row per point of the leading dimensions, each row as long as the
trailing dimension. -/
def Tensor.WF (t : Tensor) : Prop :=
  t.shape ≠ [] ∧ t.mat.length = t.shape.dropLast.prod ∧
    ∀ r ∈ t.mat, r.length = t.lastDim

/-- The 2-D core of torch.nn.functional.linear: `x @ w.transpose + bias`,
row by row. -/
def linear2d (x : Mat) (w : Mat) (bias : Option (List Int)) : Mat :=
  x.map fun xr =>
    let y := w.map fun wr => dotInt xr wr
    match bias with
    | none => y
    | some b => List.zipWith (fun u v => u + v) y b

/-- Embedding of torch.nn.functional.linear on an n-D input: applied along
the trailing dimension, the output shape is the input's leading dimensions
followed by the weight's row count. -/
def Flinear (x : Tensor) (w : Mat) (bias : Option (List Int)) : Tensor :=
  { shape := x.shape.dropLast ++ [w.length], mat := linear2d x.mat w bias }

/-- Modelled from the spec: the format-specific compressed representation
produced by magic_wand (not under src/).  `mat` is the dense matrix content
the kernels consume — the encapsulated torch sparse tensor for the
semi-structured format, the stored transposed matrix for the
block-compressed format, the decompression result otherwise — and `width`
is its row length (the output feature count for the block-compressed
form). -/
structure CompressedData where
  mat : Mat
  width : Nat
deriving DecidableEq

/-- Modelled from the spec: the opaque primitive
`decompress(compressed_weight) -> dense_matrix`. -/
def CompressedData.decompress (c : CompressedData) : Mat := c.mat

/-- Modelled from the spec: the opaque primitive
`block_compressed_gemm(input, compressed_weight) -> matrix` (magic_wand's
be_ds_gemm), a basic matmul against the transposed stored matrix — the
source comment reads "transpose when we compress so we can use a basic
matmul". -/
def be_ds_gemm (x : Mat) (c : CompressedData) : Mat :=
  x.map fun xr =>
    (List.range c.width).map fun j => dotInt xr (c.mat.map fun br => br.getD j 0)

/-- Modelled from the spec: the opaque primitive
`pad_rows_to_multiple(matrix, multiple) -> (padded_matrix, valid_row_range)`
(magic_wand's pad_tensor_to_multiple): append zero rows until the row count
is the next multiple of `k`, recording the valid rows as an
(offset, count) range. -/
def pad_tensor_to_multiple (m : Mat) (k : Nat) : Mat × Nat × Nat :=
  let n := m.length
  let width := (m.headD []).length
  (m ++ List.replicate ((k - n % k) % k) (List.replicate width 0), (0, n))

/-- Modelled from the spec: the opaque primitive
`extract_valid_rows(matrix, valid_row_range) -> matrix`, the exact left
inverse of the padding step. -/
def extract_valid_rows (m : Mat) (r : Nat × Nat) : Mat :=
  (m.drop r.1).take r.2

/-- The magic_wand compressed-storage classes the dispatcher compares
against (class identity in the source, a closed enumeration here);
`SparseBitmaskStorageFormat` stands for every class other than the two the
dispatcher names explicitly. -/
inductive CompressedStorageFormat where
  | SparseSemiStructuredStorageFormat
  | SparseBEGemmStorageFormat
  | SparseBitmaskStorageFormat
deriving DecidableEq

/-- Modelled from the spec: LazyCompressedParameter
(vllm.model_executor.layers.parameters, not under src/): logical shape
`(rows, cols)` = (output features, input features), a dtype, at most one of
an uncompressed or a compressed payload, the configured storage format
class, and the compress_transposed flag. -/
structure LazyCompressedParameter where
  rows : Nat
  cols : Nat
  dtype : TorchDtype
  uncompressed_data : Option Mat
  compressed_data : Option CompressedData
  storage_format_cls : CompressedStorageFormat
  compress_transposed : Bool
deriving DecidableEq

/-- Accessor has_uncompressed_data of LazyCompressedParameter. -/
def LazyCompressedParameter.has_uncompressed_data
    (w : LazyCompressedParameter) : Bool :=
  w.uncompressed_data.isSome

/-- Accessor has_compressed_data of LazyCompressedParameter. -/
def LazyCompressedParameter.has_compressed_data
    (w : LazyCompressedParameter) : Bool :=
  w.compressed_data.isSome

/-- The linear method object: it carries the storage format class chosen at
configuration time (the sparsity config itself is not consulted by the two
methods below and is omitted). -/
structure SparseW16A16LinearMethod where
  storage_format_cls : CompressedStorageFormat

/-- Translation of SparseW16A16LinearMethod.create_weights; the result is
the single "weight" entry of the returned dict.  torch.empty allocates an
uninitialized tensor the external loader later fills, so the payload starts
empty. -/
def SparseW16A16LinearMethod.create_weights (self : SparseW16A16LinearMethod)
    (input_size_per_partition output_size_per_partition : Nat)
    (_input_size _output_size : Nat)
    (params_dtype : TorchDtype) : LazyCompressedParameter :=
  let supports_linear : Bool :=
    self.storage_format_cls != CompressedStorageFormat.SparseBEGemmStorageFormat
  { rows := output_size_per_partition
    cols := input_size_per_partition
    dtype := params_dtype
    uncompressed_data := none
    compressed_data := none
    storage_format_cls := self.storage_format_cls
    compress_transposed := !supports_linear }

/-- Translation of SparseW16A16LinearMethod.apply_weights.  Python assert
failures and attribute errors surface as Except.error; `.contiguous()` is
the identity in this value model, and `x.reshape(-1, x.shape[-1])` is
`x.mat` in the flattened representation. -/
def SparseW16A16LinearMethod.apply_weights (self : SparseW16A16LinearMethod)
    (w : LazyCompressedParameter) (x : Tensor)
    (bias : Option (List Int)) : Except String Tensor :=
  match w.uncompressed_data with
  | some u =>
      if w.has_compressed_data then .error "assert not w.has_compressed_data"
      else .ok (Flinear x u bias)
  | none =>
      if self.storage_format_cls =
          CompressedStorageFormat.SparseSemiStructuredStorageFormat then
        if bias.isSome then .error "assert bias is None"
        else
          match w.compressed_data with
          | none => .error "w.compressed_data is None"
          | some c =>
              let w_encap := c.mat
              let out_shape := x.shape.dropLast ++ [w_encap.length]
              let p := pad_tensor_to_multiple x.mat 8
              let output :=
                linear2d p.1 w_encap (some (List.replicate w_encap.length 0))
              .ok { shape := out_shape, mat := extract_valid_rows output p.2 }
      else if self.storage_format_cls =
          CompressedStorageFormat.SparseBEGemmStorageFormat then
        if bias.isSome then .error "assert bias is None"
        else if !w.compress_transposed then
          .error "assert w.compress_transposed"
        else
          match w.compressed_data with
          | none => .error "w.compressed_data is None"
          | some c =>
              let out_shape := x.shape.dropLast ++ [w.rows]
              .ok { shape := out_shape, mat := be_ds_gemm x.mat c }
      else
        if w.compress_transposed then
          .error "assert not w.compress_transposed"
        else
          match w.compressed_data with
          | none => .error "w.compressed_data is None"
          | some c => .ok (Flinear x c.decompress bias)

/-- Which configuration path of get_model raised an error. -/
inductive ConfigKind where
  | quantization
  | sparsity
deriving DecidableEq

/-- The errors get_model (and _get_model_architecture) can raise; each
constructor records the data interpolated into the source's message. -/
inductive GetModelError where
  | unsupportedArchitectures (architectures : List String)
      (supported : List String)
  | capabilityTooLow (kind : ConfigKind) (method : String)
      (min_capability : Nat) (current : Nat)
  | dtypeUnsupported (kind : ConfigKind) (method : String)
      (dtype : TorchDtype) (supported : List TorchDtype)
  | buildFailure (msg : String)
deriving DecidableEq

/-- The for-loop body of _get_model_architecture: the first architecture
name the registry resolves wins. -/
def find_model_cls {C : Type} (load_model_cls : String → Option C) :
    List String → Option C
  | [] => none
  | arch :: rest =>
      match load_model_cls arch with
      | some cls => some cls
      | none => find_model_cls load_model_cls rest

/-- Translation of _get_model_architecture: scan config.architectures in
order, return the class of the first name the registry resolves, and
otherwise raise an error listing the supported architectures.  The registry
(ModelRegistry.load_model_cls / get_supported_archs) is an external
collaborator, passed as parameters. -/
def _get_model_architecture {C : Type} (load_model_cls : String → Option C)
    (supported_archs : List String) (architectures : List String) :
    Except GetModelError C :=
  match find_model_cls load_model_cls architectures with
  | some cls => .ok cls
  | none => .error (.unsupportedArchitectures architectures supported_archs)

/-- The interface of a quantization or sparsity config consumed by
get_model: get_min_capability, get_supported_act_dtypes, and
get_linear_method (the produced dispatcher, abstracted to an id). -/
structure QSConfig where
  min_capability : Nat
  supported_act_dtypes : List TorchDtype
  linear_method : Nat
deriving DecidableEq

/-- The ordinal capability[0] * 10 + capability[1] computed from
torch.cuda.get_device_capability(). -/
def capabilityOrdinal (device_capability : Nat × Nat) : Nat :=
  device_capability.1 * 10 + device_capability.2

/-- The capability and dtype checks get_model runs inline for one
quantization or sparsity config, in source order: the capability check
first (regardless of dtype), then membership of the model dtype in the
supported activation dtypes; on success the config's linear method is
produced. -/
def gate_config (kind : ConfigKind) (method : String) (capability : Nat)
    (model_dtype : TorchDtype) (cfg : QSConfig) : Except GetModelError Nat :=
  if capability < cfg.min_capability then
    .error (.capabilityTooLow kind method cfg.min_capability capability)
  else if model_dtype ∉ cfg.supported_act_dtypes then
    .error (.dtypeUnsupported kind method model_dtype cfg.supported_act_dtypes)
  else .ok cfg.linear_method

/-- The linear-method selection section of get_model: linear_method starts
as None; the quantization block (when configured) runs its gate and assigns
it, a failure aborting the call; then the sparsity block (when configured)
runs its gate and assigns it, overwriting any quantization choice. -/
def select_linear_method (capability : Nat) (model_dtype : TorchDtype)
    (quantization sparsity : Option (String × QSConfig)) :
    Except GetModelError (Option Nat) :=
  let afterQuant : Except GetModelError (Option Nat) :=
    match quantization with
    | none => .ok none
    | some (name, qc) =>
        (gate_config .quantization name capability model_dtype qc).map some
  match afterQuant with
  | .error e => .error e
  | .ok lm =>
      match sparsity with
      | none => .ok lm
      | some (name, sc) =>
          (gate_config .sparsity name capability model_dtype sc).map some

/-- The process-wide torch state the loader mutates: the default dtype. -/
structure TorchState where
  default_dtype : TorchDtype
deriving DecidableEq

/-- Translation of the _set_default_torch_dtype context manager as a state
transformer around a block that may raise: the old default is saved, the
new one installed, and the old one restored after the block.  The
generator body has no try/finally, so the restore runs only when the block
returns normally; an exception propagates with whatever default the block
left installed. -/
def _set_default_torch_dtype {M : Type} (dtype : TorchDtype)
    (body : TorchState → Except (GetModelError × TorchState) (M × TorchState))
    (s : TorchState) : Except (GetModelError × TorchState) (M × TorchState) :=
  let old_dtype := s.default_dtype
  match body { s with default_dtype := dtype } with
  | .ok (model, s2) => .ok (model, { s2 with default_dtype := old_dtype })
  | .error e => .error e

/-- The fields of ModelConfig that get_model reads; quantization and
sparsity are the configured method names handed to the config loaders. -/
structure ModelConfig where
  architectures : List String
  quantization : Option String
  sparsity : Option String
  dtype : TorchDtype
deriving DecidableEq

/-- Translation of get_model: resolve the architecture, run the
quantization and sparsity gates to select the linear method, then run the
model-construction and weight-loading block under the model dtype as the
process default.  External collaborators are parameters: the architecture
registry, the config loaders (get_quant_config / get_sparse_config), the
device capability, and `build` — the block inside the with-statement, which
receives the resolved model class and the selected linear method. -/
def get_model {C M : Type} (load_model_cls : String → Option C)
    (supported_archs : List String)
    (get_quant_config get_sparse_config : String → QSConfig)
    (device_capability : Nat × Nat)
    (build : C → Option Nat → TorchState →
      Except (GetModelError × TorchState) (M × TorchState))
    (model_config : ModelConfig) (s : TorchState) :
    Except (GetModelError × TorchState) (M × TorchState) :=
  match _get_model_architecture load_model_cls supported_archs
      model_config.architectures with
  | .error e => .error (e, s)
  | .ok model_class =>
      match select_linear_method (capabilityOrdinal device_capability)
          model_config.dtype
          (model_config.quantization.map fun n => (n, get_quant_config n))
          (model_config.sparsity.map fun n => (n, get_sparse_config n)) with
      | .error e => .error (e, s)
      | .ok linear_method =>
          _set_default_torch_dtype model_config.dtype
            (build model_class linear_method) s

/-- C1: for every weight whose payload is uncompressed, apply_weights
returns the standard dense linear transform with the caller's optional
bias, regardless of the configured storage format class. -/
theorem C1_uncompressed_dense_fallback
    (fmt : CompressedStorageFormat) (w : LazyCompressedParameter) (u : Mat)
    (x : Tensor) (bias : Option (List Int))
    (hu : w.uncompressed_data = some u) (hc : w.compressed_data = none) :
    SparseW16A16LinearMethod.apply_weights ⟨fmt⟩ w x bias
      = .ok (Flinear x u bias) := by
  simp [SparseW16A16LinearMethod.apply_weights, hu, hc,
    LazyCompressedParameter.has_compressed_data]

/-- Witness for C1 at a concrete weight and input. -/
theorem C1_uncompressed_dense_fallback_witness :
    SparseW16A16LinearMethod.apply_weights
      ⟨CompressedStorageFormat.SparseBEGemmStorageFormat⟩
      { rows := 2, cols := 2, dtype := TorchDtype.float16,
        uncompressed_data := some [[1, 2], [0, 1]], compressed_data := none,
        storage_format_cls := CompressedStorageFormat.SparseBEGemmStorageFormat,
        compress_transposed := false }
      { shape := [1, 2], mat := [[3, 4]] } (some [10, 20])
      = .ok { shape := [1, 2], mat := [[21, 24]] } :=
  C1_uncompressed_dense_fallback
    CompressedStorageFormat.SparseBEGemmStorageFormat _ [[1, 2], [0, 1]]
    { shape := [1, 2], mat := [[3, 4]] } (some [10, 20]) rfl rfl

/-- C2: on the structured-sparse branch with bias absent, apply_weights
flattens the input, pads the row count to the next multiple of 8 with zero
rows, runs the structured-sparse matmul with a zero bias sized to the
output feature count, strips the result back to the original row count via
the recorded valid range, and reshapes to the logical output shape; a
supplied bias fails the assert precondition. -/
theorem C2_structured_sparse_branch
    (w : LazyCompressedParameter) (c : CompressedData) (x : Tensor)
    (b : List Int)
    (hu : w.uncompressed_data = none) (hc : w.compressed_data = some c) :
    (SparseW16A16LinearMethod.apply_weights
        ⟨CompressedStorageFormat.SparseSemiStructuredStorageFormat⟩ w x none
      = .ok { shape := x.shape.dropLast ++ [c.mat.length],
              mat := extract_valid_rows
                (linear2d (pad_tensor_to_multiple x.mat 8).1 c.mat
                  (some (List.replicate c.mat.length 0)))
                (pad_tensor_to_multiple x.mat 8).2 }) ∧
    (pad_tensor_to_multiple x.mat 8).1.length % 8 = 0 ∧
    x.mat.length ≤ (pad_tensor_to_multiple x.mat 8).1.length ∧
    (pad_tensor_to_multiple x.mat 8).1.take x.mat.length = x.mat ∧
    (∀ r ∈ (pad_tensor_to_multiple x.mat 8).1.drop x.mat.length,
      ∀ v ∈ r, v = 0) ∧
    (extract_valid_rows
        (linear2d (pad_tensor_to_multiple x.mat 8).1 c.mat
          (some (List.replicate c.mat.length 0)))
        (pad_tensor_to_multiple x.mat 8).2).length = x.mat.length ∧
    (SparseW16A16LinearMethod.apply_weights
        ⟨CompressedStorageFormat.SparseSemiStructuredStorageFormat⟩ w x (some b)
      = .error "assert bias is None") := by
  have hfst : (pad_tensor_to_multiple x.mat 8).1
      = x.mat ++ List.replicate ((8 - x.mat.length % 8) % 8)
          (List.replicate (x.mat.headD []).length 0) := rfl
  have hsnd : (pad_tensor_to_multiple x.mat 8).2 = (0, x.mat.length) := rfl
  have hlen : (pad_tensor_to_multiple x.mat 8).1.length
      = x.mat.length + (8 - x.mat.length % 8) % 8 := by
    rw [hfst]; simp
  refine ⟨?_, ?_, ?_, ?_, ?_, ?_, ?_⟩
  · simp [SparseW16A16LinearMethod.apply_weights, hu, hc]
  · rw [hlen]; omega
  · rw [hlen]; omega
  · rw [hfst]; exact List.take_left x.mat _
  · intro r hr v hv
    rw [hfst, List.drop_left] at hr
    rw [List.eq_of_mem_replicate hr] at hv
    exact List.eq_of_mem_replicate hv
  · rw [hsnd]
    simp only [extract_valid_rows, List.drop_zero, List.length_take,
      linear2d, List.length_map]
    rw [hlen]; omega
  · simp [SparseW16A16LinearMethod.apply_weights, hu, hc]

/-- Witness for C2 at a concrete weight and a 1-row input: the row count is
padded from 1 to 8 and stripped back to 1. -/
theorem C2_structured_sparse_branch_witness :
    SparseW16A16LinearMethod.apply_weights
      ⟨CompressedStorageFormat.SparseSemiStructuredStorageFormat⟩
      { rows := 2, cols := 2, dtype := TorchDtype.float16,
        uncompressed_data := none,
        compressed_data := some { mat := [[1, 0], [0, 1]], width := 2 },
        storage_format_cls :=
          CompressedStorageFormat.SparseSemiStructuredStorageFormat,
        compress_transposed := false }
      { shape := [1, 2], mat := [[3, 4]] } none
      = .ok { shape := [1, 2], mat := [[3, 4]] } :=
  (C2_structured_sparse_branch _ { mat := [[1, 0], [0, 1]], width := 2 }
    { shape := [1, 2], mat := [[3, 4]] } [0] rfl rfl).1

/-- C3: on the block-compressed-GEMM branch, a supplied bias fails the
assert precondition, compress_transposed false fails the assert
precondition, and otherwise apply_weights flattens the input, runs the
block-compressed GEMM directly on the compressed payload with no padding
step, and reshapes to the logical output shape. -/
theorem C3_block_compressed_gemm_branch
    (w : LazyCompressedParameter) (c : CompressedData) (x : Tensor)
    (b : List Int)
    (hu : w.uncompressed_data = none) (hc : w.compressed_data = some c) :
    (SparseW16A16LinearMethod.apply_weights
        ⟨CompressedStorageFormat.SparseBEGemmStorageFormat⟩ w x (some b)
      = .error "assert bias is None") ∧
    (w.compress_transposed = false →
      SparseW16A16LinearMethod.apply_weights
          ⟨CompressedStorageFormat.SparseBEGemmStorageFormat⟩ w x none
        = .error "assert w.compress_transposed") ∧
    (w.compress_transposed = true →
      SparseW16A16LinearMethod.apply_weights
          ⟨CompressedStorageFormat.SparseBEGemmStorageFormat⟩ w x none
        = .ok { shape := x.shape.dropLast ++ [w.rows],
                mat := be_ds_gemm x.mat c }) := by
  refine ⟨?_, ?_, ?_⟩
  · simp [SparseW16A16LinearMethod.apply_weights, hu, hc]
  · intro ht; simp [SparseW16A16LinearMethod.apply_weights, hu, hc, ht]
  · intro ht; simp [SparseW16A16LinearMethod.apply_weights, hu, hc, ht]

/-- Witness for C3 at a concrete transposed compressed weight. -/
theorem C3_block_compressed_gemm_branch_witness :
    SparseW16A16LinearMethod.apply_weights
      ⟨CompressedStorageFormat.SparseBEGemmStorageFormat⟩
      { rows := 2, cols := 2, dtype := TorchDtype.float16,
        uncompressed_data := none,
        compressed_data := some { mat := [[1, 0], [0, 1]], width := 2 },
        storage_format_cls := CompressedStorageFormat.SparseBEGemmStorageFormat,
        compress_transposed := true }
      { shape := [1, 2], mat := [[3, 4]] } none
      = .ok { shape := [1, 2], mat := [[3, 4]] } :=
  (C3_block_compressed_gemm_branch _ { mat := [[1, 0], [0, 1]], width := 2 }
    { shape := [1, 2], mat := [[3, 4]] } [0] rfl rfl).2.2 rfl

/-- C4: on the generic compressed fallback (any storage format class other
than the two named ones), compress_transposed true fails the assert
precondition, and otherwise apply_weights decompresses the payload and
returns the standard dense linear transform with the caller's optional
bias. -/
theorem C4_generic_compressed_fallback
    (fmt : CompressedStorageFormat)
    (w : LazyCompressedParameter) (c : CompressedData) (x : Tensor)
    (bias : Option (List Int))
    (h1 : fmt ≠ CompressedStorageFormat.SparseSemiStructuredStorageFormat)
    (h2 : fmt ≠ CompressedStorageFormat.SparseBEGemmStorageFormat)
    (hu : w.uncompressed_data = none) (hc : w.compressed_data = some c) :
    (w.compress_transposed = true →
      SparseW16A16LinearMethod.apply_weights ⟨fmt⟩ w x bias
        = .error "assert not w.compress_transposed") ∧
    (w.compress_transposed = false →
      SparseW16A16LinearMethod.apply_weights ⟨fmt⟩ w x bias
        = .ok (Flinear x c.decompress bias)) := by
  constructor
  · intro ht; simp [SparseW16A16LinearMethod.apply_weights, hu, hc, ht, h1, h2]
  · intro ht; simp [SparseW16A16LinearMethod.apply_weights, hu, hc, ht, h1, h2]

/-- Witness for C4 at a concrete compressed weight with a bias. -/
theorem C4_generic_compressed_fallback_witness :
    SparseW16A16LinearMethod.apply_weights
      ⟨CompressedStorageFormat.SparseBitmaskStorageFormat⟩
      { rows := 2, cols := 2, dtype := TorchDtype.float16,
        uncompressed_data := none,
        compressed_data := some { mat := [[1, 0], [0, 1]], width := 2 },
        storage_format_cls := CompressedStorageFormat.SparseBitmaskStorageFormat,
        compress_transposed := false }
      { shape := [1, 2], mat := [[3, 4]] } (some [10, 20])
      = .ok { shape := [1, 2], mat := [[13, 24]] } :=
  (C4_generic_compressed_fallback
    CompressedStorageFormat.SparseBitmaskStorageFormat _
    { mat := [[1, 0], [0, 1]], width := 2 }
    { shape := [1, 2], mat := [[3, 4]] } (some [10, 20])
    (by decide) (by decide) rfl rfl).2 rfl

/-- C7: create_weights sets compress_transposed to true exactly when the
configured storage format class is SparseBEGemmStorageFormat (the one
variant whose kernel has no direct F.linear analogue), and to false for
every other class. -/
theorem C7_compress_transposed_iff_be_gemm
    (fmt : CompressedStorageFormat)
    (input_size_per_partition output_size_per_partition : Nat)
    (input_size output_size : Nat) (params_dtype : TorchDtype) :
    (SparseW16A16LinearMethod.create_weights ⟨fmt⟩
        input_size_per_partition output_size_per_partition
        input_size output_size params_dtype).compress_transposed = true
      ↔ fmt = CompressedStorageFormat.SparseBEGemmStorageFormat := by
  cases fmt <;> simp [SparseW16A16LinearMethod.create_weights]

/-- Witness for C7 at both a block-compressed and a bitmask format. -/
theorem C7_compress_transposed_iff_be_gemm_witness :
    (SparseW16A16LinearMethod.create_weights
        ⟨CompressedStorageFormat.SparseBEGemmStorageFormat⟩ 8 4 8 4
        TorchDtype.float16).compress_transposed = true :=
  (C7_compress_transposed_iff_be_gemm
    CompressedStorageFormat.SparseBEGemmStorageFormat 8 4 8 4
    TorchDtype.float16).mpr rfl

/-- Row count of the 2-D linear transform equals the input row count. -/
theorem linear2d_length (x w : Mat) (b : Option (List Int)) :
    (linear2d x w b).length = x.length := by
  simp [linear2d]

/-- Every output row of the 2-D linear transform has the weight's row count
as its length, provided any bias is at least that long. -/
theorem linear2d_row_length (x w : Mat) (b : Option (List Int))
    (hb : ∀ bv, b = some bv → w.length ≤ bv.length) :
    ∀ r ∈ linear2d x w b, r.length = w.length := by
  intro r hr
  cases b with
  | none =>
      simp only [linear2d, List.mem_map] at hr
      obtain ⟨xr, hxr, hrw⟩ := hr
      rw [← hrw]; simp
  | some bv =>
      have hlen := hb bv rfl
      simp only [linear2d, List.mem_map] at hr
      obtain ⟨xr, hxr, hrw⟩ := hr
      rw [← hrw]
      simp only [List.length_zipWith, List.length_map]
      omega

/-- Row count of the block-compressed GEMM equals the input row count. -/
theorem be_ds_gemm_length (x : Mat) (c : CompressedData) :
    (be_ds_gemm x c).length = x.length := by
  simp [be_ds_gemm]

/-- Every output row of the block-compressed GEMM has the compressed
form's output width as its length. -/
theorem be_ds_gemm_row_length (x : Mat) (c : CompressedData) :
    ∀ r ∈ be_ds_gemm x c, r.length = c.width := by
  intro r hr
  simp only [be_ds_gemm, List.mem_map] at hr
  obtain ⟨xr, hxr, hrw⟩ := hr
  rw [← hrw]; simp

/-- The n-D linear transform keeps the leading dimensions, appends the
weight's row count as trailing dimension, and preserves well-formedness. -/
theorem Flinear_shape_WF (x : Tensor) (wm : Mat) (bias : Option (List Int))
    (hx : x.WF) (hb : ∀ bv, bias = some bv → wm.length ≤ bv.length) :
    (Flinear x wm bias).shape = x.shape.dropLast ++ [wm.length] ∧
      (Flinear x wm bias).WF := by
  obtain ⟨hne, hlen, hwid⟩ := hx
  refine ⟨rfl, ?_, ?_, ?_⟩
  · simp [Flinear]
  · simp [Flinear, linear2d_length, List.dropLast_concat, hlen]
  · intro r hr
    have hr2 := linear2d_row_length x.mat wm bias hb r hr
    simp [Tensor.lastDim, Flinear, List.getLastD_concat, hr2]

/-- Dimension statement for a stored matrix: row count `r`, every row of
length `c`. -/
abbrev MatDims (m : Mat) (r c : Nat) : Prop :=
  m.length = r ∧ ∀ row ∈ m, row.length = c

/-- The preconditions of the dispatch branch apply_weights takes for a
given storage format class, weight state and bias: any supplied bias is
sized to the output feature count, the payload present has the dimensions
the logical `(rows, cols)` shape dictates, and the branch's own
precondition flags hold. -/
def branchWF (fmt : CompressedStorageFormat) (w : LazyCompressedParameter)
    (bias : Option (List Int)) : Prop :=
  (∀ b, bias = some b → b.length = w.rows) ∧
  match w.uncompressed_data, w.compressed_data with
  | some u, _ => w.compressed_data = none ∧ MatDims u w.rows w.cols
  | none, none => False
  | none, some c =>
      match fmt with
      | CompressedStorageFormat.SparseSemiStructuredStorageFormat =>
          bias = none ∧ MatDims c.mat w.rows w.cols
      | CompressedStorageFormat.SparseBEGemmStorageFormat =>
          bias = none ∧ w.compress_transposed = true ∧
            c.width = w.rows ∧ MatDims c.mat w.cols w.rows
      | CompressedStorageFormat.SparseBitmaskStorageFormat =>
          w.compress_transposed = false ∧ MatDims c.mat w.rows w.cols

/-- C5: on every dispatch branch, for a well-formed input whose trailing
dimension is the weight's input feature count and a weight satisfying the
branch's preconditions, apply_weights succeeds and its output shape is the
input's leading dimensions concatenated with the weight's output feature
count, with a well-formed flattened representation. -/
theorem C5_output_shape_invariant
    (fmt : CompressedStorageFormat) (w : LazyCompressedParameter)
    (x : Tensor) (bias : Option (List Int))
    (hx : x.WF) (_hcols : x.lastDim = w.cols) (hw : branchWF fmt w bias) :
    ∃ y, SparseW16A16LinearMethod.apply_weights ⟨fmt⟩ w x bias = .ok y ∧
      y.shape = x.shape.dropLast ++ [w.rows] ∧ y.WF := by
  simp only [branchWF] at hw
  obtain ⟨hbias, hw⟩ := hw
  cases hu : w.uncompressed_data with
  | some u =>
      rw [hu] at hw
      obtain ⟨hc, hulen, huwid⟩ := hw
      have hb : ∀ bv, bias = some bv → u.length ≤ bv.length := by
        intro bv hbv
        rw [hulen, hbias bv hbv]
      obtain ⟨hsh, hWF⟩ := Flinear_shape_WF x u bias hx hb
      refine ⟨Flinear x u bias, ?_, ?_, hWF⟩
      · simp [SparseW16A16LinearMethod.apply_weights, hu, hc,
          LazyCompressedParameter.has_compressed_data]
      · rw [hsh, hulen]
  | none =>
      cases hc : w.compressed_data with
      | none => rw [hu, hc] at hw; exact hw.elim
      | some c =>
          rw [hu, hc] at hw
          obtain ⟨hne, hxlen, hxwid⟩ := hx
          cases fmt with
          | SparseSemiStructuredStorageFormat =>
              obtain ⟨hb0, hclen, hcwid⟩ := hw
              subst hb0
              have hpsnd : (pad_tensor_to_multiple x.mat 8).2
                  = (0, x.mat.length) := rfl
              have hplen : (pad_tensor_to_multiple x.mat 8).1.length
                  = x.mat.length + (8 - x.mat.length % 8) % 8 := by
                simp [pad_tensor_to_multiple]
              have hext : (extract_valid_rows
                  (linear2d (pad_tensor_to_multiple x.mat 8).1 c.mat
                    (some (List.replicate c.mat.length 0)))
                  (pad_tensor_to_multiple x.mat 8).2).length
                  = x.mat.length := by
                rw [hpsnd]
                simp only [extract_valid_rows, List.drop_zero,
                  List.length_take, linear2d_length]
                rw [hplen]; omega
              refine ⟨⟨x.shape.dropLast ++ [c.mat.length],
                extract_valid_rows
                  (linear2d (pad_tensor_to_multiple x.mat 8).1 c.mat
                    (some (List.replicate c.mat.length 0)))
                  (pad_tensor_to_multiple x.mat 8).2⟩, ?_, ?_, ?_, ?_, ?_⟩
              · simp [SparseW16A16LinearMethod.apply_weights, hu, hc]
              · rw [hclen]
              · simp
              · simp only [List.dropLast_concat]
                rw [hext, hxlen]
              · intro r hr
                have hr2 : r ∈ linear2d (pad_tensor_to_multiple x.mat 8).1
                    c.mat (some (List.replicate c.mat.length 0)) := by
                  rw [hpsnd] at hr
                  simp only [extract_valid_rows, List.drop_zero] at hr
                  exact List.take_subset _ _ hr
                have hr3 := linear2d_row_length _ c.mat _ ?_ r hr2
                · simp [Tensor.lastDim, List.getLastD_concat, hr3]
                · intro bv hbv
                  injection hbv with h
                  rw [← h]; simp
          | SparseBEGemmStorageFormat =>
              obtain ⟨hb0, ht, hcw, hclen, hcwid⟩ := hw
              subst hb0
              refine ⟨⟨x.shape.dropLast ++ [w.rows], be_ds_gemm x.mat c⟩,
                ?_, rfl, ?_, ?_, ?_⟩
              · simp [SparseW16A16LinearMethod.apply_weights, hu, hc, ht]
              · simp
              · simp only [List.dropLast_concat]
                rw [be_ds_gemm_length, hxlen]
              · intro r hr
                have hr2 := be_ds_gemm_row_length x.mat c r hr
                simp [Tensor.lastDim, List.getLastD_concat, hr2, hcw]
          | SparseBitmaskStorageFormat =>
              obtain ⟨ht, hclen, hcwid⟩ := hw
              have hb : ∀ bv, bias = some bv →
                  (CompressedData.decompress c).length ≤ bv.length := by
                intro bv hbv
                rw [CompressedData.decompress, hclen, hbias bv hbv]
              obtain ⟨hsh, hWF⟩ :=
                Flinear_shape_WF x c.decompress bias ⟨hne, hxlen, hxwid⟩ hb
              refine ⟨Flinear x c.decompress bias, ?_, ?_, hWF⟩
              · simp [SparseW16A16LinearMethod.apply_weights, hu, hc, ht]
              · rw [hsh]
                simp [CompressedData.decompress, hclen]

/-- Witness for C5 on the structured-sparse branch at a concrete weight and
a 1-row input. -/
theorem C5_output_shape_invariant_witness :
    ∃ y, SparseW16A16LinearMethod.apply_weights
      ⟨CompressedStorageFormat.SparseSemiStructuredStorageFormat⟩
      { rows := 2, cols := 2, dtype := TorchDtype.float16,
        uncompressed_data := none,
        compressed_data := some { mat := [[1, 0], [0, 1]], width := 2 },
        storage_format_cls :=
          CompressedStorageFormat.SparseSemiStructuredStorageFormat,
        compress_transposed := false }
      { shape := [1, 2], mat := [[3, 4]] } none = .ok y ∧
      y.shape = [1, 2] ∧ y.WF :=
  C5_output_shape_invariant
    CompressedStorageFormat.SparseSemiStructuredStorageFormat
    { rows := 2, cols := 2, dtype := TorchDtype.float16,
      uncompressed_data := none,
      compressed_data := some { mat := [[1, 0], [0, 1]], width := 2 },
      storage_format_cls :=
        CompressedStorageFormat.SparseSemiStructuredStorageFormat,
      compress_transposed := false }
    { shape := [1, 2], mat := [[3, 4]] } none
    (by refine ⟨by decide, by decide, ?_⟩; decide) (by decide)
    (by simp [branchWF, MatDims])

/-- The registry scan returns none when no listed name resolves. -/
theorem find_model_cls_none {C : Type} (f : String → Option C) :
    ∀ l, (∀ n ∈ l, f n = none) → find_model_cls f l = none := by
  intro l
  induction l with
  | nil => intro _; rfl
  | cons p ps ih =>
      intro h
      have hp := h p (by simp)
      simp only [find_model_cls, hp]
      exact ih fun n hn => h n (by simp [hn])

/-- The registry scan returns the first name that resolves, whatever
follows it. -/
theorem find_model_cls_first {C : Type} (f : String → Option C) (a : String)
    (cls : C) (post : List String) (ha : f a = some cls) :
    ∀ pre, (∀ n ∈ pre, f n = none) →
      find_model_cls f (pre ++ a :: post) = some cls := by
  intro pre
  induction pre with
  | nil => intro _; simp [find_model_cls, ha]
  | cons p ps ih =>
      intro h
      have hp := h p (by simp)
      simp only [List.cons_append, find_model_cls, hp]
      exact ih fun n hn => h n (by simp [hn])

/-- C8: _get_model_architecture scans the architecture names in order and
the first name the registry resolves wins, whatever comes after it; when no
name resolves it fails with an error carrying the full supported list. -/
theorem C8_architecture_resolution
    {C : Type} (load_model_cls : String → Option C)
    (supported_archs : List String)
    (pre post : List String) (a : String) (cls : C) (archs : List String)
    (hpre : ∀ n ∈ pre, load_model_cls n = none)
    (ha : load_model_cls a = some cls)
    (hall : ∀ n ∈ archs, load_model_cls n = none) :
    _get_model_architecture load_model_cls supported_archs (pre ++ a :: post)
      = .ok cls ∧
    _get_model_architecture load_model_cls supported_archs archs
      = .error (.unsupportedArchitectures archs supported_archs) := by
  constructor
  · have hfind := find_model_cls_first load_model_cls a cls post ha pre hpre
    simp [_get_model_architecture, hfind]
  · have hfind := find_model_cls_none load_model_cls archs hall
    simp [_get_model_architecture, hfind]

/-- Witness for C8 on a concrete three-name registry scan and a concrete
unresolvable list. -/
theorem C8_architecture_resolution_witness :
    _get_model_architecture
      (fun n => if n = "LlamaForCausalLM" then some 1 else none)
      ["LlamaForCausalLM"] ["Unknown", "LlamaForCausalLM", "Later"]
      = .ok 1 ∧
    _get_model_architecture
      (fun n => if n = "LlamaForCausalLM" then some 1 else none)
      ["LlamaForCausalLM"] ["Unknown"]
      = .error (.unsupportedArchitectures ["Unknown"] ["LlamaForCausalLM"]) :=
  C8_architecture_resolution
    (fun n => if n = "LlamaForCausalLM" then some 1 else none)
    ["LlamaForCausalLM"] ["Unknown"] ["Later"] "LlamaForCausalLM" 1
    ["Unknown"] (by decide) (by decide) (by decide)

/-- C6: in get_model, on both the quantization and the sparsity paths, a
device capability ordinal strictly below the config's minimum fails with
the capability error regardless of the model dtype, and a capability at or
above the minimum with a model dtype outside the supported activation
dtypes fails with the dtype error; in every case the call aborts with the
torch state untouched, for every possible build step. -/
theorem C6_capability_dtype_gating
    {C M : Type} (load_model_cls : String → Option C)
    (supported_archs : List String)
    (get_quant_config get_sparse_config : String → QSConfig)
    (device_capability : Nat × Nat)
    (build : C → Option Nat → TorchState →
      Except (GetModelError × TorchState) (M × TorchState))
    (model_config : ModelConfig) (s : TorchState) (model_class : C)
    (harch : _get_model_architecture load_model_cls supported_archs
        model_config.architectures = .ok model_class) :
    (∀ qname, model_config.quantization = some qname →
      (capabilityOrdinal device_capability
          < (get_quant_config qname).min_capability →
        get_model load_model_cls supported_archs get_quant_config
            get_sparse_config device_capability build model_config s
          = .error (.capabilityTooLow .quantization qname
              (get_quant_config qname).min_capability
              (capabilityOrdinal device_capability), s)) ∧
      ((get_quant_config qname).min_capability
          ≤ capabilityOrdinal device_capability →
        model_config.dtype ∉ (get_quant_config qname).supported_act_dtypes →
        get_model load_model_cls supported_archs get_quant_config
            get_sparse_config device_capability build model_config s
          = .error (.dtypeUnsupported .quantization qname
              model_config.dtype
              (get_quant_config qname).supported_act_dtypes, s))) ∧
    (∀ sname, model_config.sparsity = some sname →
      (∀ qname, model_config.quantization = some qname →
        gate_config .quantization qname (capabilityOrdinal device_capability)
            model_config.dtype (get_quant_config qname)
          = .ok (get_quant_config qname).linear_method) →
      (capabilityOrdinal device_capability
          < (get_sparse_config sname).min_capability →
        get_model load_model_cls supported_archs get_quant_config
            get_sparse_config device_capability build model_config s
          = .error (.capabilityTooLow .sparsity sname
              (get_sparse_config sname).min_capability
              (capabilityOrdinal device_capability), s)) ∧
      ((get_sparse_config sname).min_capability
          ≤ capabilityOrdinal device_capability →
        model_config.dtype ∉ (get_sparse_config sname).supported_act_dtypes →
        get_model load_model_cls supported_archs get_quant_config
            get_sparse_config device_capability build model_config s
          = .error (.dtypeUnsupported .sparsity sname
              model_config.dtype
              (get_sparse_config sname).supported_act_dtypes, s))) := by
  constructor
  · intro qname hq
    constructor
    · intro hcap
      have hg : gate_config .quantization qname
          (capabilityOrdinal device_capability) model_config.dtype
          (get_quant_config qname)
          = .error (.capabilityTooLow .quantization qname
              (get_quant_config qname).min_capability
              (capabilityOrdinal device_capability)) := by
        simp [gate_config, hcap]
      simp [get_model, harch, select_linear_method, Except.map, hq, hg]
    · intro hcap hdt
      have hnc : ¬ capabilityOrdinal device_capability
          < (get_quant_config qname).min_capability := Nat.not_lt.mpr hcap
      have hg : gate_config .quantization qname
          (capabilityOrdinal device_capability) model_config.dtype
          (get_quant_config qname)
          = .error (.dtypeUnsupported .quantization qname model_config.dtype
              (get_quant_config qname).supported_act_dtypes) := by
        simp [gate_config, hnc, hdt]
      simp [get_model, harch, select_linear_method, Except.map, hq, hg]
  · intro sname hs hqok
    constructor
    · intro hcap
      have hg : gate_config .sparsity sname
          (capabilityOrdinal device_capability) model_config.dtype
          (get_sparse_config sname)
          = .error (.capabilityTooLow .sparsity sname
              (get_sparse_config sname).min_capability
              (capabilityOrdinal device_capability)) := by
        simp [gate_config, hcap]
      cases hq : model_config.quantization with
      | none => simp [get_model, harch, select_linear_method, Except.map, hq, hs, hg]
      | some qname =>
          simp [get_model, harch, select_linear_method, Except.map, hq, hs,
            hqok qname hq, hg]
    · intro hcap hdt
      have hnc : ¬ capabilityOrdinal device_capability
          < (get_sparse_config sname).min_capability := Nat.not_lt.mpr hcap
      have hg : gate_config .sparsity sname
          (capabilityOrdinal device_capability) model_config.dtype
          (get_sparse_config sname)
          = .error (.dtypeUnsupported .sparsity sname model_config.dtype
              (get_sparse_config sname).supported_act_dtypes) := by
        simp [gate_config, hnc, hdt]
      cases hq : model_config.quantization with
      | none => simp [get_model, harch, select_linear_method, Except.map, hq, hs, hg]
      | some qname =>
          simp [get_model, harch, select_linear_method, Except.map, hq, hs,
            hqok qname hq, hg]

/-- Witness for C6: a concrete quantization config whose minimum capability
exceeds the device's, failing with the capability error. -/
theorem C6_capability_dtype_gating_witness :
    get_model (fun _ => some 0) ["LlamaForCausalLM"]
      (fun _ => { min_capability := 80,
                  supported_act_dtypes := [TorchDtype.float16],
                  linear_method := 1 })
      (fun _ => { min_capability := 80,
                  supported_act_dtypes := [TorchDtype.float16],
                  linear_method := 2 })
      (7, 5) (fun _ _ st => .ok (0, st))
      { architectures := ["LlamaForCausalLM"], quantization := some "gptq",
        sparsity := none, dtype := TorchDtype.float16 }
      { default_dtype := TorchDtype.float32 }
      = .error (.capabilityTooLow .quantization "gptq" 80 75,
          { default_dtype := TorchDtype.float32 }) :=
  ((C6_capability_dtype_gating (fun _ => some 0) ["LlamaForCausalLM"]
      (fun _ => { min_capability := 80,
                  supported_act_dtypes := [TorchDtype.float16],
                  linear_method := 1 })
      (fun _ => { min_capability := 80,
                  supported_act_dtypes := [TorchDtype.float16],
                  linear_method := 2 })
      (7, 5) (fun _ _ st => .ok (0, st))
      { architectures := ["LlamaForCausalLM"], quantization := some "gptq",
        sparsity := none, dtype := TorchDtype.float16 }
      { default_dtype := TorchDtype.float32 } 0 rfl).1 "gptq" rfl).1
    (by decide)

/-- C9: when both a quantization and a sparsity method are configured and
both gates pass, get_model raises no configuration error and the linear
method handed to the build step is the sparsity config's — the sparsity
block silently overwrites the quantization-selected one. -/
theorem C9_sparsity_overwrites_quantization
    {C M : Type} (load_model_cls : String → Option C)
    (supported_archs : List String)
    (get_quant_config get_sparse_config : String → QSConfig)
    (device_capability : Nat × Nat)
    (build : C → Option Nat → TorchState →
      Except (GetModelError × TorchState) (M × TorchState))
    (model_config : ModelConfig) (s : TorchState) (model_class : C)
    (qname sname : String)
    (harch : _get_model_architecture load_model_cls supported_archs
        model_config.architectures = .ok model_class)
    (hq : model_config.quantization = some qname)
    (hs : model_config.sparsity = some sname)
    (hqcap : (get_quant_config qname).min_capability
        ≤ capabilityOrdinal device_capability)
    (hqdt : model_config.dtype ∈ (get_quant_config qname).supported_act_dtypes)
    (hscap : (get_sparse_config sname).min_capability
        ≤ capabilityOrdinal device_capability)
    (hsdt : model_config.dtype
        ∈ (get_sparse_config sname).supported_act_dtypes) :
    select_linear_method (capabilityOrdinal device_capability)
        model_config.dtype
        (model_config.quantization.map fun n => (n, get_quant_config n))
        (model_config.sparsity.map fun n => (n, get_sparse_config n))
      = .ok (some (get_sparse_config sname).linear_method) ∧
    get_model load_model_cls supported_archs get_quant_config
        get_sparse_config device_capability build model_config s
      = _set_default_torch_dtype model_config.dtype
          (build model_class (some (get_sparse_config sname).linear_method))
          s := by
  have hgq : gate_config .quantization qname
      (capabilityOrdinal device_capability) model_config.dtype
      (get_quant_config qname)
      = .ok (get_quant_config qname).linear_method := by
    simp [gate_config, Nat.not_lt.mpr hqcap, hqdt]
  have hgs : gate_config .sparsity sname
      (capabilityOrdinal device_capability) model_config.dtype
      (get_sparse_config sname)
      = .ok (get_sparse_config sname).linear_method := by
    simp [gate_config, Nat.not_lt.mpr hscap, hsdt]
  have hsel : select_linear_method (capabilityOrdinal device_capability)
      model_config.dtype
      (model_config.quantization.map fun n => (n, get_quant_config n))
      (model_config.sparsity.map fun n => (n, get_sparse_config n))
      = .ok (some (get_sparse_config sname).linear_method) := by
    simp [select_linear_method, Except.map, hq, hs, hgq, hgs]
  refine ⟨hsel, ?_⟩
  simp [get_model, harch, hsel]

/-- Witness for C9: both gates pass at a concrete configuration and the
selected method id is the sparsity config's. -/
theorem C9_sparsity_overwrites_quantization_witness :
    select_linear_method 80 TorchDtype.float16
        (some ("gptq", QSConfig.mk 70 [TorchDtype.float16] 1))
        (some ("sparse_w16a16", QSConfig.mk 70 [TorchDtype.float16] 2))
      = .ok (some 2) :=
  (C9_sparsity_overwrites_quantization (fun _ => some 0) ["LlamaForCausalLM"]
    (fun _ => QSConfig.mk 70 [TorchDtype.float16] 1)
    (fun _ => QSConfig.mk 70 [TorchDtype.float16] 2)
    (8, 0) (fun _ _ st => Except.ok (0, st))
    { architectures := ["LlamaForCausalLM"], quantization := some "gptq",
      sparsity := some "sparse_w16a16", dtype := TorchDtype.float16 }
    { default_dtype := TorchDtype.float32 } 0 "gptq" "sparse_w16a16"
    rfl rfl rfl (by decide) (by decide) (by decide) (by decide)).1

/-- C10: a get_model call that returns normally leaves the process default
dtype exactly as it was before the call (the context manager restores the
saved default), and because the restore is not under try/finally this holds
only on the non-exceptional path: a block that raises propagates the
exception with the temporary default still installed. -/
theorem C10_default_dtype_restored_on_success :
    (∀ (C M : Type) (load_model_cls : String → Option C)
        (supported_archs : List String)
        (get_quant_config get_sparse_config : String → QSConfig)
        (device_capability : Nat × Nat)
        (build : C → Option Nat → TorchState →
          Except (GetModelError × TorchState) (M × TorchState))
        (model_config : ModelConfig) (s s2 : TorchState) (m : M),
      get_model load_model_cls supported_archs get_quant_config
          get_sparse_config device_capability build model_config s
        = .ok (m, s2) → s2.default_dtype = s.default_dtype) ∧
    (∃ (dtype : TorchDtype)
        (body : TorchState →
          Except (GetModelError × TorchState) (Nat × TorchState))
        (s s2 : TorchState) (e : GetModelError),
      _set_default_torch_dtype dtype body s = .error (e, s2) ∧
        s2.default_dtype ≠ s.default_dtype) := by
  constructor
  · intro C M lmc sa gq gs dc build mc s s2 m h
    unfold get_model at h
    cases harch : _get_model_architecture lmc sa mc.architectures with
    | error e => simp [harch] at h
    | ok cls =>
        simp only [harch] at h
        cases hsel : select_linear_method (capabilityOrdinal dc) mc.dtype
            (mc.quantization.map fun n => (n, gq n))
            (mc.sparsity.map fun n => (n, gs n)) with
        | error e => simp [hsel] at h
        | ok lm =>
            simp only [hsel] at h
            unfold _set_default_torch_dtype at h
            cases hbody : build cls lm { s with default_dtype := mc.dtype } with
            | error e => simp [hbody] at h
            | ok p =>
                obtain ⟨mm, ss⟩ := p
                simp only [hbody, Except.ok.injEq, Prod.mk.injEq] at h
                rw [← h.2]
  · exact ⟨TorchDtype.float32,
      fun st => .error (.buildFailure "load_weights failed", st),
      { default_dtype := TorchDtype.float16 },
      { default_dtype := TorchDtype.float32 },
      .buildFailure "load_weights failed", rfl, by decide⟩

/-- Witness for C10 at a concrete successful get_model run: the default
dtype before the call is float16, the model is built under float32, and the
final default is float16 again. -/
theorem C10_default_dtype_restored_on_success_witness :
    TorchState.default_dtype { default_dtype := TorchDtype.float16 }
      = TorchState.default_dtype { default_dtype := TorchDtype.float16 } :=
  C10_default_dtype_restored_on_success.1 Nat Nat (fun _ => some 0)
    ["LlamaForCausalLM"]
    (fun _ => QSConfig.mk 0 [] 1)
    (fun _ => QSConfig.mk 0 [] 2)
    (8, 0) (fun _ _ st => Except.ok (5, st))
    { architectures := ["LlamaForCausalLM"], quantization := none,
      sparsity := none, dtype := TorchDtype.float32 }
    { default_dtype := TorchDtype.float16 }
    { default_dtype := TorchDtype.float16 } 5 rfl
